import Mathlib

/-!
Shallow embedding of the inventory simulation from the `rustsim` and
`rustoclsim` crates.

The Rust code simulates a periodic-review inventory policy over a 365-day
year.  Randomness (the two Zipf samplers driven by `rand::thread_rng`) is
embedded as explicit oracle streams: `traffic day` gives the number of
customers arriving on `day`, and `request day c` gives the quantity
requested by customer `c` of that day.  All machine integers in the source
are `usize`/`u64` used well below their range; they are embedded as `Nat`.
The two `f64` success rates returned by `simulate_demand_inner` are embedded
as exact rational quotients of the integer counters.
-/

namespace RustSim

/-- Configuration struct `Simulation` from `rustsim/src/lib.rs`.  The two
Zipf exponents are `f64` in the source; they only ever enter comparisons
and distribution construction, so they are embedded as rationals. -/
structure Simulation where
  safety_stock : Nat
  lead_time : Nat
  order_quantity : Nat
  job_lot_zipf : ℚ
  itemwise_traffic_zipf : ℚ
deriving DecidableEq

/-- Constructor `Simulation::new` from `rustsim/src/lib.rs` (lines 16-32).
It stores the five parameters unchanged, defaulting the exponents to 2.75
and 4.0, and performs no validation whatsoever: it cannot fail. -/
def Simulation.new (safety_stock lead_time order_quantity : Nat)
    (job_lot_zipf itemwise_traffic_zipf : Option ℚ) : Simulation :=
  ⟨safety_stock, lead_time, order_quantity,
    job_lot_zipf.getD (11 / 4), itemwise_traffic_zipf.getD 4⟩

/-- Mutable state of one trial of `simulate_demand_inner`: the four
counters, the on-hand stock, and the `trucks` ring buffer. -/
structure TrialState where
  successful_transactions : Nat
  successful_sales : Nat
  failed_transactions : Nat
  failed_sales : Nat
  stock : Nat
  trucks : List Nat
deriving DecidableEq

/-- Ring slot written by the reorder step of day `day`:
`(day + lead_time - 1) % lead_time` (line 73 of `rustsim/src/lib.rs`). -/
def scheduleSlot (lead_time day : Nat) : Nat :=
  (day + lead_time - 1) % lead_time

/-- Ring slot read by the arrival step of day `day`: `day % lead_time`
(line 53 of `rustsim/src/lib.rs`). -/
def arrivalSlot (lead_time day : Nat) : Nat :=
  day % lead_time

/-- Arrival step (line 53): `stock += trucks[day % lead_time]`.  Note the
source does not clear the slot it reads. -/
def arrivalPhase (sim : Simulation) (day : Nat) (s : TrialState) : TrialState :=
  { s with stock := s.stock + s.trucks.getD (arrivalSlot sim.lead_time day) 0 }

/-- Body of the per-customer loop (lines 57-68): one customer requesting
`request` units is served from stock if possible and otherwise counted as a
failed transaction, leaving stock unchanged. -/
def serveCustomer (s : TrialState) (request : Nat) : TrialState :=
  if request ≤ s.stock then
    { s with successful_transactions := s.successful_transactions + 1,
             successful_sales := s.successful_sales + request,
             stock := s.stock - request }
  else
    { s with failed_transactions := s.failed_transactions + 1,
             failed_sales := s.failed_sales + request }

/-- Demand step of one day (lines 55-68): serve `customers` customers, the
`c`-th requesting `request c` units. -/
def demandPhase (customers : Nat) (request : Nat → Nat) (s : TrialState) : TrialState :=
  (List.range customers).foldl (fun st c => serveCustomer st (request c)) s

/-- Write of line 73: `trucks[(day + lead_time - 1) % lead_time] = quantity`.
A plain assignment: it overwrites whatever the slot held. -/
def schedule (lead_time : Nat) (trucks : List Nat) (day quantity : Nat) : List Nat :=
  trucks.set (scheduleSlot lead_time day) quantity

/-- Reorder step of one day (lines 69-74). -/
def reorderPhase (sim : Simulation) (day : Nat) (s : TrialState) : TrialState :=
  if s.stock < sim.safety_stock then
    let short := max (sim.safety_stock - s.stock) 0
    let orders := (short + sim.order_quantity - 1) / sim.order_quantity
    { s with trucks := schedule sim.lead_time s.trucks day (orders * sim.order_quantity) }
  else s

/-- One iteration of the `for day in 0..365` loop (lines 51-75): arrival,
then demand, then the reorder decision. -/
def dayStep (sim : Simulation) (traffic : Nat → Nat) (request : Nat → Nat → Nat)
    (day : Nat) (s : TrialState) : TrialState :=
  reorderPhase sim day (demandPhase (traffic day) (request day) (arrivalPhase sim day s))

/-- State at the top of the loop (lines 40-46): zero counters, the starting
stock, and `trucks = vec![0; lead_time]`. -/
def initialState (sim : Simulation) (starting_quantity : Nat) : TrialState :=
  ⟨0, 0, 0, 0, starting_quantity, List.replicate sim.lead_time 0⟩

/-- State after the first `days` iterations of the day loop of
`simulate_demand_inner`. -/
def simulate_demand_days (sim : Simulation) (starting_quantity : Nat)
    (traffic : Nat → Nat) (request : Nat → Nat → Nat) (days : Nat) : TrialState :=
  (List.range days).foldl (fun s day => dayStep sim traffic request day s)
    (initialState sim starting_quantity)

/-- `simulate_demand_inner` (lines 36-91): run the 365-day loop and return
the four counters together with the two success rates. -/
def simulate_demand_inner (sim : Simulation) (starting_quantity : Nat)
    (traffic : Nat → Nat) (request : Nat → Nat → Nat) :
    Nat × Nat × Nat × Nat × ℚ × ℚ :=
  let s := simulate_demand_days sim starting_quantity traffic request 365
  (s.successful_transactions, s.successful_sales, s.failed_transactions, s.failed_sales,
    (s.successful_transactions : ℚ) /
      ((s.successful_transactions : ℚ) + (s.failed_transactions : ℚ)),
    (s.successful_sales : ℚ) / ((s.successful_sales : ℚ) + (s.failed_sales : ℚ)))

/-- `repeat_simulate_demand` (lines 94-115): run `count` trials with the
same configuration and starting quantity, each with its own draw streams
(`traffic trial`, `request trial`), sum the four counters, and derive the
two rates from the sums. -/
def repeat_simulate_demand (sim : Simulation) (starting_quantity count : Nat)
    (traffic : Nat → Nat → Nat) (request : Nat → Nat → Nat → Nat) :
    Nat × Nat × Nat × Nat × ℚ × ℚ :=
  let t := (List.range count).foldl
    (fun (acc : Nat × Nat × Nat × Nat) trial =>
      let r := simulate_demand_inner sim starting_quantity (traffic trial) (request trial)
      (acc.1 + r.1, acc.2.1 + r.2.1, acc.2.2.1 + r.2.2.1, acc.2.2.2 + r.2.2.2.1))
    (0, 0, 0, 0)
  (t.1, t.2.1, t.2.2.1, t.2.2.2,
    (t.1 : ℚ) / ((t.1 : ℚ) + (t.2.2.1 : ℚ)),
    (t.2.1 : ℚ) / ((t.2.1 : ℚ) + (t.2.2.2 : ℚ)))

/-! Checked variant of the trial loop.  Every operation that can panic in
the Rust source — slice indexing, `%` and `/` with divisor zero, unsigned
subtraction, and the `unwrap` of `zipf::ZipfDistribution::new` — is
modelled as an `Option`-valued operation that returns `none` exactly where
the source panics.  On the panic-free executions it agrees with the total
embedding above. -/

/-- Unsigned subtraction `a - b`, panicking (in debug builds) on underflow. -/
def checkedSub (a b : Nat) : Option Nat :=
  if b ≤ a then some (a - b) else none

/-- Remainder `a % b`, panicking when `b = 0`. -/
def checkedMod (a b : Nat) : Option Nat :=
  if b = 0 then none else some (a % b)

/-- Quotient `a / b`, panicking when `b = 0`. -/
def checkedDiv (a b : Nat) : Option Nat :=
  if b = 0 then none else some (a / b)

/-- Modelled from the spec: `zipf::ZipfDistribution::new(n, shape)` is an
external crate whose source is not in the repository; per the spec,
construction fails exactly when the shape is non-positive or `n = 0`, and
the Rust code `unwrap`s the result (lines 48-49). -/
def zipfNew (n : Nat) (shape : ℚ) : Option Unit :=
  if 0 < shape ∧ n ≠ 0 then some () else none

/-- Checked arrival step: `trucks[day % lead_time]` panics if
`lead_time = 0` (remainder by zero) or the index is out of bounds. -/
def arrivalPhaseChecked (sim : Simulation) (day : Nat) (s : TrialState) :
    Option TrialState := do
  let idx ← checkedMod day sim.lead_time
  let q ← s.trucks[idx]?
  pure { s with stock := s.stock + q }

/-- Checked per-customer step: the subtraction `stock -= request` is
guarded by the branch condition `stock >= request`. -/
def serveCustomerChecked (s : TrialState) (request : Nat) : Option TrialState :=
  if request ≤ s.stock then
    (checkedSub s.stock request).map fun st =>
      { s with successful_transactions := s.successful_transactions + 1,
               successful_sales := s.successful_sales + request,
               stock := st }
  else
    some { s with failed_transactions := s.failed_transactions + 1,
                  failed_sales := s.failed_sales + request }

/-- Checked demand step. -/
def demandPhaseChecked (customers : Nat) (request : Nat → Nat) (s : TrialState) :
    Option TrialState :=
  (List.range customers).foldlM (fun st c => serveCustomerChecked st (request c)) s

/-- Checked reorder step: `safety_stock - stock` is guarded by
`stock < safety_stock`; `short + order_quantity - 1` could underflow only
if both terms were zero; the division panics when `order_quantity = 0`;
the slot computation `(day + lead_time - 1) % lead_time` panics when
`lead_time = 0`; and the index assignment panics out of bounds. -/
def reorderPhaseChecked (sim : Simulation) (day : Nat) (s : TrialState) :
    Option TrialState :=
  if s.stock < sim.safety_stock then do
    let short0 ← checkedSub sim.safety_stock s.stock
    let short := max short0 0
    let t1 ← checkedSub (short + sim.order_quantity) 1
    let orders ← checkedDiv t1 sim.order_quantity
    let t2 ← checkedSub (day + sim.lead_time) 1
    let slot ← checkedMod t2 sim.lead_time
    if slot < s.trucks.length then
      pure { s with trucks := s.trucks.set slot (orders * sim.order_quantity) }
    else none
  else pure s

/-- Checked day step. -/
def dayStepChecked (sim : Simulation) (traffic : Nat → Nat)
    (request : Nat → Nat → Nat) (day : Nat) (s : TrialState) : Option TrialState := do
  let s1 ← arrivalPhaseChecked sim day s
  let s2 ← demandPhaseChecked (traffic day) (request day) s1
  reorderPhaseChecked sim day s2

/-- Checked run of the first `days` iterations of the day loop. -/
def simulate_demand_days_checked (sim : Simulation) (starting_quantity : Nat)
    (traffic : Nat → Nat) (request : Nat → Nat → Nat) (days : Nat) :
    Option TrialState :=
  (List.range days).foldlM (fun s day => dayStepChecked sim traffic request day s)
    (initialState sim starting_quantity)

/-- Checked `simulate_demand_inner`: the two sampler constructions are
`unwrap`ped before the loop (lines 48-49), then the 365-day loop runs. -/
def simulate_demand_inner_checked (sim : Simulation) (starting_quantity : Nat)
    (traffic : Nat → Nat) (request : Nat → Nat → Nat) :
    Option (Nat × Nat × Nat × Nat × ℚ × ℚ) := do
  let _ ← zipfNew 1000 sim.job_lot_zipf
  let _ ← zipfNew 1000 sim.itemwise_traffic_zipf
  let s ← simulate_demand_days_checked sim starting_quantity traffic request 365
  pure (s.successful_transactions, s.successful_sales, s.failed_transactions,
    s.failed_sales,
    (s.successful_transactions : ℚ) /
      ((s.successful_transactions : ℚ) + (s.failed_transactions : ℚ)),
    (s.successful_sales : ℚ) / ((s.successful_sales : ℚ) + (s.failed_sales : ℚ)))

end RustSim

namespace RustOclSim

/-- `precompute_zipf_buffer` from `rustoclsim/src/lib.rs` (lines 174-178):
draw `16 << 20` samples from a Zipf distribution with the given parameters
and collect them into a vector.  The thread-rng-driven sampler is embedded
as the oracle stream `sample`. -/
def precompute_zipf_buffer (num_elements : Nat) (exponent : ℚ)
    (sample : Nat → Nat) : List Nat :=
  (List.range (16 <<< 20)).map sample

/-- Configuration struct `Simulation` from `rustoclsim/src/lib.rs`: plain
parameters plus the two precomputed sample tables. -/
structure Simulation where
  safety_stock : Nat
  lead_time : Nat
  order_quantity : Nat
  job_lot_zipf_precomp : List Nat
  itemwise_traffic_zipf_precomp : List Nat
deriving DecidableEq

/-- Constructor `Simulation::new` from `rustoclsim/src/lib.rs` (lines
58-74): defaults the exponents and builds both sample tables once, at
construction time, from the constructor's own entropy (`jl_sample`,
`it_sample`). -/
def Simulation.new (safety_stock lead_time order_quantity : Nat)
    (job_lot_zipf itemwise_traffic_zipf : Option ℚ)
    (jl_sample it_sample : Nat → Nat) : Simulation :=
  ⟨safety_stock, lead_time, order_quantity,
    precompute_zipf_buffer 1000 (job_lot_zipf.getD (11 / 4)) jl_sample,
    precompute_zipf_buffer 1000 (itemwise_traffic_zipf.getD 4) it_sample⟩

/-- Host-side tables uploaded by one batch (`ocl_repeat_simulate_demand`,
the two `copy_host_slice(&self...zipf_precomp[..])` calls): the batch reads
them from `self`; its own entropy (`batch_entropy`, the `rand::random()`
stream used for the per-lane seeds) never feeds the tables. -/
def ocl_batch_tables (sim : Simulation) (batch_entropy : Nat → Nat) :
    List Nat × List Nat :=
  (sim.job_lot_zipf_precomp, sim.itemwise_traffic_zipf_precomp)

/-- Modelled from the spec: §4.2/§3 say the sample table is "built at batch
start" from that batch's fresh draws; this is the job-lot table a batch
would upload under that lifecycle, to be compared with `ocl_batch_tables`. -/
def spec_batch_job_lot_table (exponent : ℚ) (batch_entropy : Nat → Nat) : List Nat :=
  precompute_zipf_buffer 1000 exponent batch_entropy

/-- Per-lane chunk size computed by `ocl_repeat_simulate_demand` (line 87):
`chunk_size = simulation_samples / 1000`. -/
def ocl_chunk_size (simulation_samples : Nat) : Nat :=
  simulation_samples / 1000

/-- Number of lanes launched by `ocl_repeat_simulate_demand` (line 88 and
the `dims(chunk_count)` call): fixed at 1000. -/
def ocl_chunk_count : Nat := 1000

/-- Modelled from the spec: the kernel source `simulation.cl` is not under
`src/`; per spec §4.5 each of the `chunk_count` lanes independently runs
its `chunk_size` share of the work, so the batch performs
`chunk_count * chunk_size` trial units in total. -/
def ocl_total_lane_trials (simulation_samples : Nat) : Nat :=
  ocl_chunk_count * ocl_chunk_size simulation_samples

/-- Lead time passed to the kernel by `ocl_repeat_simulate_demand`
(line 133): `self.lead_time.min(10)`. -/
def ocl_kernel_lead_time (lead_time : Nat) : Nat :=
  min lead_time 10

end RustOclSim

namespace RustSim

/-! Helper lemmas about the phases of a day. -/

lemma serveCustomer_tx_sum (s : TrialState) (r : Nat) :
    (serveCustomer s r).successful_transactions + (serveCustomer s r).failed_transactions
      = s.successful_transactions + s.failed_transactions + 1 := by
  unfold serveCustomer
  split <;> simp <;> omega

lemma serveCustomer_trucks (s : TrialState) (r : Nat) :
    (serveCustomer s r).trucks = s.trucks := by
  unfold serveCustomer
  split <;> rfl

lemma foldl_serve_tx_sum (request : Nat → Nat) (l : List Nat) :
    ∀ s : TrialState,
      (l.foldl (fun st c => serveCustomer st (request c)) s).successful_transactions
        + (l.foldl (fun st c => serveCustomer st (request c)) s).failed_transactions
      = s.successful_transactions + s.failed_transactions + l.length := by
  induction l with
  | nil => intro s; simp
  | cons a t ih =>
      intro s
      have h := serveCustomer_tx_sum s (request a)
      simp only [List.foldl_cons, List.length_cons]
      rw [ih]
      omega

lemma foldl_serve_trucks (request : Nat → Nat) (l : List Nat) :
    ∀ s : TrialState,
      (l.foldl (fun st c => serveCustomer st (request c)) s).trucks = s.trucks := by
  induction l with
  | nil => intro s; rfl
  | cons a t ih =>
      intro s
      simp only [List.foldl_cons]
      rw [ih, serveCustomer_trucks]

lemma demandPhase_tx_sum (customers : Nat) (request : Nat → Nat) (s : TrialState) :
    (demandPhase customers request s).successful_transactions
        + (demandPhase customers request s).failed_transactions
      = s.successful_transactions + s.failed_transactions + customers := by
  unfold demandPhase
  rw [foldl_serve_tx_sum, List.length_range]

lemma demandPhase_trucks (customers : Nat) (request : Nat → Nat) (s : TrialState) :
    (demandPhase customers request s).trucks = s.trucks := by
  unfold demandPhase
  exact foldl_serve_trucks request (List.range customers) s

lemma arrivalPhase_counters (sim : Simulation) (day : Nat) (s : TrialState) :
    (arrivalPhase sim day s).successful_transactions = s.successful_transactions
      ∧ (arrivalPhase sim day s).failed_transactions = s.failed_transactions
      ∧ (arrivalPhase sim day s).trucks = s.trucks :=
  ⟨rfl, rfl, rfl⟩

lemma reorderPhase_counters (sim : Simulation) (day : Nat) (s : TrialState) :
    (reorderPhase sim day s).successful_transactions = s.successful_transactions
      ∧ (reorderPhase sim day s).failed_transactions = s.failed_transactions
      ∧ (reorderPhase sim day s).stock = s.stock := by
  unfold reorderPhase
  split <;> simp

lemma reorderPhase_trucks_length (sim : Simulation) (day : Nat) (s : TrialState) :
    (reorderPhase sim day s).trucks.length = s.trucks.length := by
  unfold reorderPhase schedule
  split <;> simp

lemma dayStep_tx_sum (sim : Simulation) (traffic : Nat → Nat)
    (request : Nat → Nat → Nat) (day : Nat) (s : TrialState) :
    (dayStep sim traffic request day s).successful_transactions
        + (dayStep sim traffic request day s).failed_transactions
      = s.successful_transactions + s.failed_transactions + traffic day := by
  unfold dayStep
  have hr := reorderPhase_counters sim day
    (demandPhase (traffic day) (request day) (arrivalPhase sim day s))
  have hd := demandPhase_tx_sum (traffic day) (request day) (arrivalPhase sim day s)
  have ha := arrivalPhase_counters sim day s
  omega

lemma simulate_demand_days_succ (sim : Simulation) (starting_quantity : Nat)
    (traffic : Nat → Nat) (request : Nat → Nat → Nat) (n : Nat) :
    simulate_demand_days sim starting_quantity traffic request (n + 1)
      = dayStep sim traffic request n
          (simulate_demand_days sim starting_quantity traffic request n) := by
  unfold simulate_demand_days
  rw [List.range_succ, List.foldl_append]
  rfl

lemma ceil_mul_spec (short q : Nat) (hq : 1 ≤ q) (hshort : 1 ≤ short) :
    short ≤ (short + q - 1) / q * q ∧ 0 < (short + q - 1) / q * q ∧
      (short + q - 1) / q * q % q = 0 ∧
      (∀ m, m % q = 0 → short ≤ m → 0 < m → (short + q - 1) / q * q ≤ m) := by
  have hq0 : 0 < q := hq
  have hdm := Nat.div_add_mod (short + q - 1) q
  have hmod := Nat.mod_lt (short + q - 1) hq0
  set d := (short + q - 1) / q with hd
  set r := (short + q - 1) % q with hr
  have hmain : short ≤ q * d ∧ 0 < q * d := by
    revert hdm hmod
    generalize q * d = t
    intro hdm hmod
    omega
  refine ⟨by rw [Nat.mul_comm]; exact hmain.1, by rw [Nat.mul_comm]; exact hmain.2,
    Nat.mul_mod_left d q, ?_⟩
  intro m hm hsm hpos
  obtain ⟨k, rfl⟩ := Nat.dvd_of_mod_eq_zero hm
  have h1 : q * d ≤ short + q - 1 := Nat.le.intro hdm
  have h2 : q * d < q * (k + 1) := by
    have hqk : q * (k + 1) = q * k + q := by ring
    rw [hqk]
    revert h1 hsm
    generalize q * d = A
    generalize q * k = B
    intro h1 hsm
    omega
  have h3 : d < k + 1 := Nat.lt_of_mul_lt_mul_left h2
  calc d * q ≤ k * q := Nat.mul_le_mul_right q (by omega)
    _ = q * k := Nat.mul_comm _ _

lemma simulate_demand_days_tx_sum (sim : Simulation) (starting_quantity : Nat)
    (traffic : Nat → Nat) (request : Nat → Nat → Nat) :
    ∀ n : Nat,
      (simulate_demand_days sim starting_quantity traffic request n).successful_transactions
        + (simulate_demand_days sim starting_quantity traffic request n).failed_transactions
      = ((List.range n).map traffic).sum := by
  intro n
  induction n with
  | zero => simp [simulate_demand_days, initialState]
  | succ m ih =>
      rw [simulate_demand_days_succ, List.range_succ, List.map_append, List.sum_append]
      have h := dayStep_tx_sum sim traffic request m
        (simulate_demand_days sim starting_quantity traffic request m)
      simp only [List.map_cons, List.map_nil, List.sum_cons, List.sum_nil]
      omega

/-! Agreement between the checked and the total embeddings on valid
configurations. -/

lemma serveCustomerChecked_eq (s : TrialState) (r : Nat) :
    serveCustomerChecked s r = some (serveCustomer s r) := by
  unfold serveCustomerChecked serveCustomer checkedSub
  split
  case isTrue h => simp [h]
  case isFalse h => rfl

lemma foldlM_eq_foldl_of {α : Type} (P : TrialState → Prop)
    (fM : TrialState → α → Option TrialState) (f : TrialState → α → TrialState)
    (hstep : ∀ s a, P s → fM s a = some (f s a) ∧ P (f s a)) :
    ∀ (l : List α) (s : TrialState), P s →
      l.foldlM fM s = some (l.foldl f s) := by
  intro l
  induction l with
  | nil => intro s _; rfl
  | cons a t ih =>
      intro s hs
      obtain ⟨h1, h2⟩ := hstep s a hs
      rw [List.foldlM_cons, h1]
      simpa using ih (f s a) h2

lemma demandPhaseChecked_eq (customers : Nat) (request : Nat → Nat) (s : TrialState) :
    demandPhaseChecked customers request s = some (demandPhase customers request s) :=
  foldlM_eq_foldl_of (fun _ => True) _ _
    (fun s c _ => ⟨serveCustomerChecked_eq s (request c), trivial⟩)
    (List.range customers) s trivial

lemma arrivalPhaseChecked_eq (sim : Simulation) (day : Nat) (s : TrialState)
    (hL : 1 ≤ sim.lead_time) (hlen : s.trucks.length = sim.lead_time) :
    arrivalPhaseChecked sim day s = some (arrivalPhase sim day s) := by
  have hne : sim.lead_time ≠ 0 := by omega
  have hidx : day % sim.lead_time < s.trucks.length := by
    rw [hlen]; exact Nat.mod_lt _ (by omega)
  unfold arrivalPhaseChecked arrivalPhase checkedMod arrivalSlot
  rw [if_neg hne]
  simp [List.getElem?_eq_getElem hidx, List.getD_eq_getElem?_getD,
    List.getElem?_eq_getElem hidx]

lemma reorderPhaseChecked_eq (sim : Simulation) (day : Nat) (s : TrialState)
    (hL : 1 ≤ sim.lead_time) (hq : 1 ≤ sim.order_quantity)
    (hlen : s.trucks.length = sim.lead_time) :
    reorderPhaseChecked sim day s = some (reorderPhase sim day s) := by
  have hLne : sim.lead_time ≠ 0 := by omega
  have hqne : sim.order_quantity ≠ 0 := by omega
  have hslot : (day + sim.lead_time - 1) % sim.lead_time < s.trucks.length := by
    rw [hlen]; exact Nat.mod_lt _ (by omega)
  unfold reorderPhaseChecked reorderPhase checkedSub checkedDiv checkedMod
    schedule scheduleSlot
  split
  case isTrue h =>
    have h1 : s.stock ≤ sim.safety_stock := Nat.le_of_lt h
    simp [h1, hqne, hLne, hslot,
      (by omega : 1 ≤ sim.safety_stock - s.stock + sim.order_quantity),
      (by omega : 1 ≤ day + sim.lead_time)]
  case isFalse h => rfl

lemma dayStepChecked_eq (sim : Simulation) (traffic : Nat → Nat)
    (request : Nat → Nat → Nat) (day : Nat) (s : TrialState)
    (hL : 1 ≤ sim.lead_time) (hq : 1 ≤ sim.order_quantity)
    (hlen : s.trucks.length = sim.lead_time) :
    dayStepChecked sim traffic request day s
        = some (dayStep sim traffic request day s)
      ∧ (dayStep sim traffic request day s).trucks.length = sim.lead_time := by
  have ha := arrivalPhaseChecked_eq sim day s hL hlen
  have halen : (arrivalPhase sim day s).trucks.length = sim.lead_time := by
    rw [(arrivalPhase_counters sim day s).2.2]; exact hlen
  have hdlen : (demandPhase (traffic day) (request day)
      (arrivalPhase sim day s)).trucks.length = sim.lead_time := by
    rw [demandPhase_trucks]; exact halen
  constructor
  · unfold dayStepChecked dayStep
    rw [ha]
    simp only [Option.bind_eq_bind, Option.some_bind]
    rw [demandPhaseChecked_eq]
    simp only [Option.bind_eq_bind, Option.some_bind]
    exact reorderPhaseChecked_eq sim day _ hL hq hdlen
  · unfold dayStep
    rw [reorderPhase_trucks_length]
    exact hdlen

lemma simulate_demand_days_checked_eq (sim : Simulation) (starting_quantity : Nat)
    (traffic : Nat → Nat) (request : Nat → Nat → Nat)
    (hL : 1 ≤ sim.lead_time) (hq : 1 ≤ sim.order_quantity) (n : Nat) :
    simulate_demand_days_checked sim starting_quantity traffic request n
      = some (simulate_demand_days sim starting_quantity traffic request n) := by
  unfold simulate_demand_days_checked simulate_demand_days
  refine foldlM_eq_foldl_of (fun s => s.trucks.length = sim.lead_time) _ _
    ?_ (List.range n) _ ?_
  · intro s day hs
    exact dayStepChecked_eq sim traffic request day s hL hq hs
  · simp [initialState]

lemma simulate_demand_inner_checked_eq (sim : Simulation) (starting_quantity : Nat)
    (traffic : Nat → Nat) (request : Nat → Nat → Nat)
    (hL : 1 ≤ sim.lead_time) (hq : 1 ≤ sim.order_quantity)
    (hj : 0 < sim.job_lot_zipf) (hi : 0 < sim.itemwise_traffic_zipf) :
    simulate_demand_inner_checked sim starting_quantity traffic request
      = some (simulate_demand_inner sim starting_quantity traffic request) := by
  unfold simulate_demand_inner_checked simulate_demand_inner zipfNew
  rw [if_pos ⟨hj, by omega⟩, if_pos ⟨hi, by omega⟩]
  simp only [Option.bind_eq_bind, Option.some_bind]
  rw [simulate_demand_days_checked_eq sim starting_quantity traffic request hL hq 365]
  rfl

lemma dayStepChecked_L0 (sim : Simulation) (traffic : Nat → Nat)
    (request : Nat → Nat → Nat) (s : TrialState) (h : sim.lead_time = 0) :
    dayStepChecked sim traffic request 0 s = none := by
  unfold dayStepChecked arrivalPhaseChecked checkedMod
  rw [if_pos h]
  rfl

lemma simulate_demand_days_checked_L0 (sim : Simulation) (starting_quantity : Nat)
    (traffic : Nat → Nat) (request : Nat → Nat → Nat)
    (h : sim.lead_time = 0) (n : Nat) (hn : 1 ≤ n) :
    simulate_demand_days_checked sim starting_quantity traffic request n = none := by
  obtain ⟨m, rfl⟩ : ∃ m, n = m + 1 := ⟨n - 1, by omega⟩
  unfold simulate_demand_days_checked
  rw [List.range_succ_eq_map, List.foldlM_cons,
    dayStepChecked_L0 sim traffic request _ h]
  rfl

lemma repeat_totals_eq (sim : Simulation) (starting_quantity : Nat)
    (traffic : Nat → Nat → Nat) (request : Nat → Nat → Nat → Nat) :
    ∀ (l : List Nat) (acc : Nat × Nat × Nat × Nat),
      l.foldl (fun (acc : Nat × Nat × Nat × Nat) trial =>
        let r := simulate_demand_inner sim starting_quantity (traffic trial) (request trial)
        (acc.1 + r.1, acc.2.1 + r.2.1, acc.2.2.1 + r.2.2.1, acc.2.2.2 + r.2.2.2.1)) acc
      = (acc.1 + (l.map fun t =>
            (simulate_demand_inner sim starting_quantity (traffic t) (request t)).1).sum,
         acc.2.1 + (l.map fun t =>
            (simulate_demand_inner sim starting_quantity (traffic t) (request t)).2.1).sum,
         acc.2.2.1 + (l.map fun t =>
            (simulate_demand_inner sim starting_quantity (traffic t) (request t)).2.2.1).sum,
         acc.2.2.2 + (l.map fun t =>
            (simulate_demand_inner sim starting_quantity (traffic t) (request t)).2.2.2.1).sum) := by
  intro l
  induction l with
  | nil => intro acc; simp
  | cons a t ih =>
      intro acc
      simp only [List.foldl_cons, List.map_cons, List.sum_cons]
      rw [ih]
      simp [Nat.add_assoc]

/-! Fixtures used by the witnesses and counterexamples. -/

/-- Fixture configuration: the concrete scenario of spec §8 (safety stock
10, lead time 10, order quantity 7), with integer Zipf exponents. -/
def cfgGolden : Simulation := ⟨10, 10, 7, 3, 4⟩

/-- Fixture configuration with lead time 2 (safety stock 5, order quantity 3). -/
def cfgLead2 : Simulation := ⟨5, 2, 3, 3, 4⟩

/-- Fixture configuration with the invalid lead time 0. -/
def cfgLead0 : Simulation := ⟨5, 0, 3, 3, 4⟩

/-- Demand stream with no customers on any day. -/
def trafficZero : Nat → Nat := fun _ => 0

/-- Request stream (never consulted when no customers arrive). -/
def requestZero : Nat → Nat → Nat := fun _ _ => 0

/-- Demand stream with one customer per day. -/
def trafficOne : Nat → Nat := fun _ => 1

/-- Request stream in which every customer asks for one unit. -/
def requestOne : Nat → Nat → Nat := fun _ _ => 1

/-! Claim theorems. -/

/-- Claim C1: in the demand step, a customer requesting `r` when `stock ≥ r`
adds one successful transaction and `r` successful sales and removes `r`
from stock; otherwise it adds one failed transaction and `r` failed sales
and leaves the stock unchanged (lost sale, never a backorder). -/
theorem demand_step_lost_sale (s : TrialState) (r : Nat) :
    (r ≤ s.stock →
      (serveCustomer s r).successful_transactions = s.successful_transactions + 1 ∧
      (serveCustomer s r).successful_sales = s.successful_sales + r ∧
      (serveCustomer s r).stock = s.stock - r ∧
      (serveCustomer s r).failed_transactions = s.failed_transactions ∧
      (serveCustomer s r).failed_sales = s.failed_sales) ∧
    (s.stock < r →
      (serveCustomer s r).failed_transactions = s.failed_transactions + 1 ∧
      (serveCustomer s r).failed_sales = s.failed_sales + r ∧
      (serveCustomer s r).stock = s.stock ∧
      (serveCustomer s r).successful_transactions = s.successful_transactions ∧
      (serveCustomer s r).successful_sales = s.successful_sales) := by
  unfold serveCustomer
  constructor
  · intro h
    rw [if_pos h]
    exact ⟨rfl, rfl, rfl, rfl, rfl⟩
  · intro h
    rw [if_neg (by omega)]
    exact ⟨rfl, rfl, rfl, rfl, rfl⟩

/-- Witness for C1: one served customer (stock 10, request 4) and one
rejected customer (stock 2, request 5). -/
theorem demand_step_lost_sale_witness :
    ((serveCustomer ⟨0, 0, 0, 0, 10, []⟩ 4).successful_transactions = 0 + 1 ∧
      (serveCustomer ⟨0, 0, 0, 0, 10, []⟩ 4).successful_sales = 0 + 4 ∧
      (serveCustomer ⟨0, 0, 0, 0, 10, []⟩ 4).stock = 10 - 4 ∧
      (serveCustomer ⟨0, 0, 0, 0, 10, []⟩ 4).failed_transactions = 0 ∧
      (serveCustomer ⟨0, 0, 0, 0, 10, []⟩ 4).failed_sales = 0) ∧
    ((serveCustomer ⟨0, 0, 0, 0, 2, []⟩ 5).failed_transactions = 0 + 1 ∧
      (serveCustomer ⟨0, 0, 0, 0, 2, []⟩ 5).failed_sales = 0 + 5 ∧
      (serveCustomer ⟨0, 0, 0, 0, 2, []⟩ 5).stock = 2 ∧
      (serveCustomer ⟨0, 0, 0, 0, 2, []⟩ 5).successful_transactions = 0 ∧
      (serveCustomer ⟨0, 0, 0, 0, 2, []⟩ 5).successful_sales = 0) :=
  ⟨(demand_step_lost_sale ⟨0, 0, 0, 0, 10, []⟩ 4).1 (by decide),
   (demand_step_lost_sale ⟨0, 0, 0, 0, 2, []⟩ 5).2 (by decide)⟩

/-- Claim C2: at end of day, if stock is below the safety stock the engine
writes into the pipeline the smallest positive multiple of
`order_quantity` covering the shortfall (which is
`ceil(shortfall / order_quantity) * order_quantity`); otherwise it places
no order and the state is unchanged. -/
theorem reorder_minimal_multiple (sim : Simulation) (day : Nat) (s : TrialState)
    (hq : 1 ≤ sim.order_quantity) :
    (sim.safety_stock ≤ s.stock → reorderPhase sim day s = s) ∧
    (s.stock < sim.safety_stock →
      ∃ m, (reorderPhase sim day s).trucks
            = s.trucks.set (scheduleSlot sim.lead_time day) m ∧
        m % sim.order_quantity = 0 ∧
        sim.safety_stock - s.stock ≤ m ∧ 0 < m ∧
        ∀ n, n % sim.order_quantity = 0 → sim.safety_stock - s.stock ≤ n →
          0 < n → m ≤ n) := by
  constructor
  · intro h
    unfold reorderPhase
    rw [if_neg (by omega)]
  · intro h
    have hshort : 1 ≤ sim.safety_stock - s.stock := by omega
    obtain ⟨h1, h2, h3, h4⟩ :=
      ceil_mul_spec (sim.safety_stock - s.stock) sim.order_quantity hq hshort
    refine ⟨(sim.safety_stock - s.stock + sim.order_quantity - 1) / sim.order_quantity
        * sim.order_quantity, ?_, h3, h1, h2, h4⟩
    unfold reorderPhase schedule
    rw [if_pos h]
    simp

/-- Witness for C2: with the §8 configuration (safety 10, order quantity 7),
stock 12 places no order; stock 3 schedules some minimal multiple of 7
covering the shortfall 7. -/
theorem reorder_minimal_multiple_witness :
    (reorderPhase cfgGolden 0 ⟨0, 0, 0, 0, 12, List.replicate 10 0⟩
        = ⟨0, 0, 0, 0, 12, List.replicate 10 0⟩) ∧
    ∃ m, (reorderPhase cfgGolden 0 ⟨0, 0, 0, 0, 3, List.replicate 10 0⟩).trucks
          = (List.replicate 10 0).set (scheduleSlot 10 0) m ∧
      m % 7 = 0 ∧ 10 - 3 ≤ m ∧ 0 < m ∧
      ∀ n, n % 7 = 0 → 10 - 3 ≤ n → 0 < n → m ≤ n :=
  ⟨(reorder_minimal_multiple cfgGolden 0 ⟨0, 0, 0, 0, 12, List.replicate 10 0⟩
      (by decide)).1 (by decide),
   (reorder_minimal_multiple cfgGolden 0 ⟨0, 0, 0, 0, 3, List.replicate 10 0⟩
      (by decide)).2 (by decide)⟩

/-- Counterexample for C3: lead time 2, safety stock 5, order quantity 3,
starting stock 0, no customers.  Day 0 schedules 6 units into slot 1.  The
claim puts their arrival during day 0 + 2 = 2, but stock is already 6 after
day 1 (arrival one day early, at `d + L - 1`), day 2 adds nothing, and day
3 adds the never-cleared slot again, reaching 12 — so the quantity is not
added "exactly" on day `d + L` in either sense. -/
theorem pipeline_arrival_day_cex :
    simulate_demand_days cfgLead2 0 trafficZero requestZero 1
        = ⟨0, 0, 0, 0, 0, [0, 6]⟩ ∧
    (simulate_demand_days cfgLead2 0 trafficZero requestZero 2).stock = 6 ∧
    (simulate_demand_days cfgLead2 0 trafficZero requestZero 3).stock = 6 ∧
    (simulate_demand_days cfgLead2 0 trafficZero requestZero 4).stock = 12 := by
  decide

/-- Claim C3 (amended): for `L ≥ 2` the slot written by the reorder step of
day `d`, namely `(d + L - 1) % L`, is read by the arrival step of day
`d + L - 1` — one day earlier than the claimed `d + L` — and not by any day
strictly between `d` and `d + L - 1`; it is read again every `L` days
thereafter, and the arrival step never clears the slot it reads, so the
scheduled quantity is re-added until the slot is overwritten.  (For `L = 1`
every day reads the single slot, so the order does arrive on day `d + 1`.) -/
theorem pipeline_arrival_day (L d : Nat) :
    (2 ≤ L →
      arrivalSlot L (d + L - 1) = scheduleSlot L d ∧
      (∀ e, d < e → e < d + L - 1 → arrivalSlot L e ≠ scheduleSlot L d) ∧
      (∀ k, arrivalSlot L (d + L - 1 + k * L) = scheduleSlot L d)) ∧
    (∀ sim day s, (arrivalPhase sim day s).trucks = s.trucks) := by
  constructor
  · intro hL
    refine ⟨rfl, ?_, ?_⟩
    · intro e he1 he2 heq
      unfold arrivalSlot scheduleSlot at heq
      have hmeq : Nat.ModEq L e (d + L - 1) := heq
      obtain ⟨k, hk⟩ := (Nat.modEq_iff_dvd' (by omega : e ≤ d + L - 1)).mp hmeq
      rcases k with _ | k'
      · omega
      · have hge : L ≤ L * (k' + 1) := Nat.le_mul_of_pos_right L (Nat.succ_pos k')
        omega
    · intro k
      unfold arrivalSlot scheduleSlot
      exact Nat.add_mul_mod_self_right (d + L - 1) k L
  · intro sim day s
    rfl

/-- Witness for C3 (amended), at `L = 3`, `d = 5`: slot matches on day 7
and does not match on day 6. -/
theorem pipeline_arrival_day_witness :
    arrivalSlot 3 (5 + 3 - 1) = scheduleSlot 3 5 ∧
    arrivalSlot 3 6 ≠ scheduleSlot 3 5 :=
  ⟨((pipeline_arrival_day 3 5).1 (by decide)).1,
   ((pipeline_arrival_day 3 5).1 (by decide)).2.1 6 (by decide) (by decide)⟩

/-- Claim C4: writing an order into an occupied ring slot replaces the
pending quantity (the result is independent of the previously stored
value) and leaves every other slot unchanged, so each slot holds at most
one pending quantity. -/
theorem schedule_overwrites (L : Nat) (trucks : List Nat) (d1 d2 v q : Nat)
    (hslot : scheduleSlot L d1 = scheduleSlot L d2)
    (hlen : scheduleSlot L d2 < trucks.length) :
    (schedule L (schedule L trucks d1 v) d2 q).getD (scheduleSlot L d2) 0 = q ∧
    ∀ j, j ≠ scheduleSlot L d2 →
      (schedule L (schedule L trucks d1 v) d2 q).getD j 0 = trucks.getD j 0 := by
  unfold schedule
  rw [hslot, List.set_set]
  constructor
  · rw [List.getD_eq_getElem?_getD, List.getElem?_set_self (by simpa using hlen)]
    rfl
  · intro j hj
    rw [List.getD_eq_getElem?_getD, List.getElem?_set_ne (by omega),
      List.getD_eq_getElem?_getD]

/-- Witness for C4: slots of days 2 and 6 coincide for lead time 4;
scheduling 5 over a pending 9 leaves 5, and slot 0 is untouched. -/
theorem schedule_overwrites_witness :
    (schedule 4 (schedule 4 [1, 2, 3, 4] 2 9) 6 5).getD (scheduleSlot 4 6) 0 = 5 ∧
    (schedule 4 (schedule 4 [1, 2, 3, 4] 2 9) 6 5).getD 0 0 = [1, 2, 3, 4].getD 0 0 :=
  ⟨(schedule_overwrites 4 [1, 2, 3, 4] 2 6 9 5 (by decide) (by decide)).1,
   (schedule_overwrites 4 [1, 2, 3, 4] 2 6 9 5 (by decide) (by decide)).2 0 (by decide)⟩

/-- Claim C5: over any full 365-day trial, successful plus failed
transactions equals the total number of customer arrivals drawn over the
year. -/
theorem transactions_equal_arrivals (sim : Simulation) (starting_quantity : Nat)
    (traffic : Nat → Nat) (request : Nat → Nat → Nat) :
    (simulate_demand_inner sim starting_quantity traffic request).1
        + (simulate_demand_inner sim starting_quantity traffic request).2.2.1
      = ((List.range 365).map traffic).sum :=
  simulate_demand_days_tx_sum sim starting_quantity traffic request 365

/-- Counterexample for C6: the accelerated path launches 1000 lanes of
`trial_count / 1000` trials each, so for `trial_count = 1500` it runs 1000
trials, not 1500. -/
theorem batch_totals_cex : RustOclSim.ocl_total_lane_trials 1500 ≠ 1500 := by
  decide

/-- Claim C6 (amended): the scalar batch runner runs exactly `count` trials
with the same configuration and starting quantity (trial `t` drawing its
own streams), returns the four counters summed across the trials, and
returns the two ratios computed from those sums; the accelerated path
instead performs `1000 * (count / 1000)` lane trials, which equals `count`
only when `count` is a multiple of 1000. -/
theorem batch_totals (sim : Simulation) (starting_quantity count : Nat)
    (traffic : Nat → Nat → Nat) (request : Nat → Nat → Nat → Nat) :
    ((repeat_simulate_demand sim starting_quantity count traffic request).1
        = ((List.range count).map fun t =>
            (simulate_demand_inner sim starting_quantity (traffic t) (request t)).1).sum ∧
      (repeat_simulate_demand sim starting_quantity count traffic request).2.1
        = ((List.range count).map fun t =>
            (simulate_demand_inner sim starting_quantity (traffic t) (request t)).2.1).sum ∧
      (repeat_simulate_demand sim starting_quantity count traffic request).2.2.1
        = ((List.range count).map fun t =>
            (simulate_demand_inner sim starting_quantity (traffic t) (request t)).2.2.1).sum ∧
      (repeat_simulate_demand sim starting_quantity count traffic request).2.2.2.1
        = ((List.range count).map fun t =>
            (simulate_demand_inner sim starting_quantity (traffic t) (request t)).2.2.2.1).sum) ∧
    ((repeat_simulate_demand sim starting_quantity count traffic request).2.2.2.2.1
        = ((repeat_simulate_demand sim starting_quantity count traffic request).1 : ℚ)
          / (((repeat_simulate_demand sim starting_quantity count traffic request).1 : ℚ)
            + ((repeat_simulate_demand sim starting_quantity count traffic request).2.2.1 : ℚ)) ∧
      (repeat_simulate_demand sim starting_quantity count traffic request).2.2.2.2.2
        = ((repeat_simulate_demand sim starting_quantity count traffic request).2.1 : ℚ)
          / (((repeat_simulate_demand sim starting_quantity count traffic request).2.1 : ℚ)
            + ((repeat_simulate_demand sim starting_quantity count traffic request).2.2.2.1 : ℚ))) ∧
    (RustOclSim.ocl_total_lane_trials count = 1000 * (count / 1000) ∧
      (count % 1000 = 0 → RustOclSim.ocl_total_lane_trials count = count)) := by
  refine ⟨?_, ⟨rfl, rfl⟩, rfl, ?_⟩
  · unfold repeat_simulate_demand
    rw [repeat_totals_eq]
    simp
  · intro h
    unfold RustOclSim.ocl_total_lane_trials RustOclSim.ocl_chunk_size
      RustOclSim.ocl_chunk_count
    omega

/-- Witness for C6 (amended): for a multiple of 1000 the lane total equals
the requested count. -/
theorem batch_totals_witness : RustOclSim.ocl_total_lane_trials 2000 = 2000 :=
  (batch_totals cfgGolden 0 2000 (fun _ _ => 0) (fun _ _ _ => 0)).2.2.2 (by decide)

/-- Counterexample for C7: `Simulation::new` accepts `lead_time = 0`
unchanged (no configure-time detection), and the simulation then fails
(panics, modelled as `none`) at the day-0 arrival — a failure during a
simulation already started. -/
theorem config_errors_surface_cex :
    Simulation.new 5 0 3 (some 3) (some 4) = cfgLead0 ∧
    simulate_demand_inner_checked cfgLead0 10 trafficZero requestZero = none := by
  exact ⟨rfl, by decide⟩

/-- Claim C7 (amended): the scalar engine performs no validation at
configure time — `Simulation::new` returns an engine for every input,
storing the parameters unchanged — and an invalid configuration instead
fails inside `simulate_demand_inner` (`lead_time = 0` always does); for a
valid configuration (`lead_time ≥ 1`, `order_quantity ≥ 1`, positive
shapes) the simulation never fails. -/
theorem config_errors_surface_in_simulation (sim : Simulation)
    (starting_quantity : Nat) (traffic : Nat → Nat) (request : Nat → Nat → Nat) :
    (Simulation.new sim.safety_stock sim.lead_time sim.order_quantity
        (some sim.job_lot_zipf) (some sim.itemwise_traffic_zipf) = sim) ∧
    (1 ≤ sim.lead_time → 1 ≤ sim.order_quantity →
      0 < sim.job_lot_zipf → 0 < sim.itemwise_traffic_zipf →
      simulate_demand_inner_checked sim starting_quantity traffic request
        = some (simulate_demand_inner sim starting_quantity traffic request)) ∧
    (sim.lead_time = 0 →
      simulate_demand_inner_checked sim starting_quantity traffic request = none) := by
  refine ⟨?_, ?_, ?_⟩
  · obtain ⟨ss, lt, oq, a, b⟩ := sim
    rfl
  · intro hL hq hj hi
    exact simulate_demand_inner_checked_eq sim starting_quantity traffic request
      hL hq hj hi
  · intro h
    have hdays := simulate_demand_days_checked_L0 sim starting_quantity traffic
      request h 365 (by omega)
    unfold simulate_demand_inner_checked
    cases hjz : zipfNew 1000 sim.job_lot_zipf with
    | none => simp [hjz]
    | some u =>
        cases hiz : zipfNew 1000 sim.itemwise_traffic_zipf with
        | none => simp [hjz, hiz]
        | some v => simp [hjz, hiz, hdays]

/-- Witness for C7 (amended): the valid §8 configuration never fails; the
lead-time-0 configuration fails mid-simulation. -/
theorem config_errors_surface_in_simulation_witness :
    simulate_demand_inner_checked cfgGolden 10 trafficOne requestOne
        = some (simulate_demand_inner cfgGolden 10 trafficOne requestOne) ∧
    simulate_demand_inner_checked cfgLead0 10 trafficZero requestZero = none :=
  ⟨(config_errors_surface_in_simulation cfgGolden 10 trafficOne requestOne).2.1
      (by decide) (by decide) (by decide) (by decide),
   (config_errors_surface_in_simulation cfgLead0 10 trafficZero requestZero).2.2 rfl⟩

/-- Claim C9: with `lead_time ≥ 1` and `order_quantity ≥ 1`, no unsigned
subtraction of the per-trial loop underflows: each customer decrements
stock only under the guard `stock ≥ request` (the checked per-customer
step always succeeds), and the checked 365-day loop — in which every
subtraction, index, and division of the source is guarded — completes and
agrees with the total embedding, so stock stays a well-defined natural
number throughout. -/
theorem no_underflow_in_trial_loop (sim : Simulation) (starting_quantity : Nat)
    (traffic : Nat → Nat) (request : Nat → Nat → Nat)
    (hL : 1 ≤ sim.lead_time) (hq : 1 ≤ sim.order_quantity) :
    (∀ s r, serveCustomerChecked s r = some (serveCustomer s r)) ∧
    simulate_demand_days_checked sim starting_quantity traffic request 365
      = some (simulate_demand_days sim starting_quantity traffic request 365) :=
  ⟨serveCustomerChecked_eq,
   simulate_demand_days_checked_eq sim starting_quantity traffic request hL hq 365⟩

/-- Witness for C9 at the §8 configuration with one unit-demand customer
per day. -/
theorem no_underflow_in_trial_loop_witness :
    simulate_demand_days_checked cfgGolden 10 trafficOne requestOne 365
      = some (simulate_demand_days cfgGolden 10 trafficOne requestOne 365) :=
  (no_underflow_in_trial_loop cfgGolden 10 trafficOne requestOne
    (by decide) (by decide)).2

end RustSim

namespace RustOclSim

lemma precompute_zipf_buffer_getElem_zero (n : Nat) (e : ℚ) (f : Nat → Nat) :
    (precompute_zipf_buffer n e f)[0]? = some (f 0) := by
  unfold precompute_zipf_buffer
  rw [List.getElem?_map, List.getElem?_range (by decide : (0 : Nat) < 16 <<< 20)]
  rfl

attribute [irreducible] precompute_zipf_buffer

/-- Counterexample for C8: an engine whose job-lot table was drawn from the
construction entropy `fun _ => 1` runs a batch whose uploaded table is not
the table the spec's built-at-batch-start lifecycle would draw from the
batch entropy `fun _ => 2` (they already differ at index 0). -/
theorem sample_table_built_at_construction_cex :
    (ocl_batch_tables
        (Simulation.new 10 10 7 (some 3) (some 4) (fun _ => 1) (fun _ => 1))
        (fun _ => 2)).1
      ≠ spec_batch_job_lot_table 3 (fun _ => 2) := by
  intro hEq
  have h1 : (ocl_batch_tables
      (Simulation.new 10 10 7 (some 3) (some 4) (fun _ => 1) (fun _ => 1))
      (fun _ => 2)).1
      = precompute_zipf_buffer 1000 ((some (3 : ℚ)).getD (11 / 4)) (fun _ => 1) := rfl
  have h2 : spec_batch_job_lot_table 3 (fun _ => 2)
      = precompute_zipf_buffer 1000 3 (fun _ => 2) := rfl
  rw [h1, h2] at hEq
  have h0 : (precompute_zipf_buffer 1000 ((some (3 : ℚ)).getD (11 / 4)) (fun _ => 1))[0]?
      = (precompute_zipf_buffer 1000 3 (fun _ => 2))[0]? :=
    congrArg (fun l => l[0]?) hEq
  rw [precompute_zipf_buffer_getElem_zero, precompute_zipf_buffer_getElem_zero] at h0
  simp at h0

/-- Claim C8 (amended): both precomputed sample tables are built once, by
`Simulation::new` at configure time, from the constructor's entropy; they
are immutable thereafter, and every batch on that engine reuses them — the
tables a batch uploads do not depend on the batch's own entropy and are
exactly the construction-time tables. -/
theorem sample_table_built_at_construction (ss lt oq : Nat)
    (jz iz : Option ℚ) (g1 g2 h h' : Nat → Nat) :
    ocl_batch_tables (Simulation.new ss lt oq jz iz g1 g2) h
        = ocl_batch_tables (Simulation.new ss lt oq jz iz g1 g2) h' ∧
    ocl_batch_tables (Simulation.new ss lt oq jz iz g1 g2) h
        = (precompute_zipf_buffer 1000 (jz.getD (11 / 4)) g1,
           precompute_zipf_buffer 1000 (iz.getD 4) g2) :=
  ⟨rfl, rfl⟩

/-- Claim C10: the host passes `lead_time.min(10)` to the kernel — equal to
the configured lead time when it is at most 10 and strictly smaller (namely
10) when the configured lead time exceeds 10. -/
theorem kernel_lead_time_clamped (L : Nat) :
    (L ≤ 10 → ocl_kernel_lead_time L = L) ∧
    (10 < L → ocl_kernel_lead_time L = 10 ∧ ocl_kernel_lead_time L < L) := by
  unfold ocl_kernel_lead_time
  constructor
  · intro h
    omega
  · intro h
    omega

/-- Witness for C10 at lead times 7 and 12. -/
theorem kernel_lead_time_clamped_witness :
    ocl_kernel_lead_time 7 = 7 ∧
    (ocl_kernel_lead_time 12 = 10 ∧ ocl_kernel_lead_time 12 < 12) :=
  ⟨(kernel_lead_time_clamped 7).1 (by decide),
   (kernel_lead_time_clamped 12).2 (by decide)⟩

end RustOclSim
